import Mathlib

/-!
Shallow embedding of the delayed-action lifecycle engine in `src/bot.py`
(the Scrubber Bot): the per-item `loop_processor` coroutine, the
`handle_message` ingestion handler, the MongoDB-backed loop store
(`loops_collection`), and the startup recovery block under
`if __name__ == "__main__":`.

Modelling choices:
- Timestamps are natural numbers; `datetime.now()` at the post-sleep
  re-read is a parameter `now` of the cycle function.
- The MongoDB collection `loops_collection` is an association list from
  `_id` (a natural number standing for the ObjectId) to the document
  fields `{current_chat_id, current_message_id, expiration_time}`.
  `find_one`, `delete_one` and `update_one` with a single `$set` key are
  given their single-row semantics (first matching document).
- Outcomes of the two fallible platform calls are oracle parameters:
  `copy_message` either returns a new message id or raises (the code
  catches any `Exception`, so the model keeps a `transient` flag only in
  order to state claims about it); `delete_message` either succeeds,
  raises `BadRequest` (the already-deleted / NotFound case, caught by
  the code) or raises some other exception (not caught, so the
  coroutine crashes).
- One iteration of the `while True:` body is the function
  `loop_processor_cycle`; it returns the new store, the ordered list of
  observable events of the iteration (sleep, platform calls, store
  writes), and whether the loop continues (`reposted`) or exits.
  `loop_processor_run` chains iterations over a script of per-cycle
  environments, stopping at the first terminal outcome.
-/

namespace ScrubberBot

/-- A document of `loops_collection`: the fields written by
`handle_message` in `src/bot.py` lines 178-182. -/
structure LoopItem where
  currentChatId : Int
  currentMessageId : Nat
  expirationTime : Nat
deriving Repr, DecidableEq

/-- The persisted configuration read by `get_config`: `repost_delay_seconds`
and `loop_duration_seconds`. -/
structure Config where
  repostDelaySeconds : Nat
  loopDurationSeconds : Nat
deriving Repr, DecidableEq

/-- The state of `loops_collection`: documents keyed by `_id`. -/
abbrev Store := List (Nat × LoopItem)

/-- `loops_collection.find_one({"_id": loopId})`. -/
def find_one : Store → Nat → Option LoopItem
  | [], _ => none
  | (i, it) :: rest, loopId => if i = loopId then some it else find_one rest loopId

/-- `loops_collection.delete_one({"_id": loopId})`: removes the first
document with the given id, if any. -/
def delete_one : Store → Nat → Store
  | [], _ => []
  | (i, it) :: rest, loopId =>
      if i = loopId then rest else (i, it) :: delete_one rest loopId

/-- `loops_collection.update_one({"_id": loopId}, {"$set": {"current_message_id": newMid}})`:
rewrites only the `current_message_id` field of the first matching document. -/
def update_one : Store → Nat → Nat → Store
  | [], _, _ => []
  | (i, it) :: rest, loopId, newMid =>
      if i = loopId then (i, { it with currentMessageId := newMid }) :: rest
      else (i, it) :: update_one rest loopId newMid

/-- Outcome of `context.bot.copy_message`: a new message id on success, or
an exception. The code catches every `Exception` alike; the `transient`
flag records whether the exception was a retryable one (timeout, rate
limit) purely so that claims about transient errors can be stated. -/
inductive CopyResult where
  | ok (newMessageId : Nat)
  | err (transient : Bool)
deriving Repr, DecidableEq

/-- Outcome of `context.bot.delete_message`: success, `BadRequest` (the
platform answer for an already-deleted message id, caught by the code),
or any other exception (uncaught, so it propagates). -/
inductive DeleteResult where
  | ok
  | notFound
  | fatal
deriving Repr, DecidableEq

/-- Observable steps of one iteration of the `loop_processor` body, in
program order. -/
inductive Event where
  | sleep (seconds : Nat)
  | dbFindOne (loopId : Nat)
  | copyMsg (chatId : Int) (messageId : Nat)
  | deleteMsg (chatId : Int) (messageId : Nat)
  | dbUpdateMessageId (loopId : Nat) (newMessageId : Nat)
  | dbDeleteRow (loopId : Nat)
deriving Repr, DecidableEq

/-- How one iteration of the `while True:` body ends. `reposted` is the
only outcome that loops back; the others `break` out or crash the task. -/
inductive CycleOutcome where
  | reposted
  | cancelled
  | expired
  | failed
  | crashed
deriving Repr, DecidableEq

/-- Result of one iteration: resulting store, ordered events, outcome. -/
structure CycleResult where
  store : Store
  events : List Event
  outcome : CycleOutcome
deriving Repr, DecidableEq

/-- One iteration of the `while True:` body of `loop_processor`
(`src/bot.py` lines 126-164):
read the config and sleep; re-fetch the document (absent means the loop
was stopped, so exit); if `expiration_time < now` delete the current
message (tolerating `BadRequest`), delete the row and exit; otherwise
copy the message, update `current_message_id` on success or delete the
row on any exception, and in the `finally` block always try to delete
the old message (tolerating `BadRequest`). -/
def loop_processor_cycle (cfg : Config) (now : Nat) (copyRes : CopyResult)
    (delRes : DeleteResult) (store : Store) (loopId : Nat) : CycleResult :=
  let repostDelay := cfg.repostDelaySeconds
  let pre : List Event := [.sleep repostDelay, .dbFindOne loopId]
  match find_one store loopId with
  | none => ⟨store, pre, .cancelled⟩
  | some loopDoc =>
    if loopDoc.expirationTime < now then
      match delRes with
      | .fatal =>
          ⟨store, pre ++ [.deleteMsg loopDoc.currentChatId loopDoc.currentMessageId],
           .crashed⟩
      | _ =>
          ⟨delete_one store loopId,
           pre ++ [.deleteMsg loopDoc.currentChatId loopDoc.currentMessageId,
                   .dbDeleteRow loopId],
           .expired⟩
    else
      let chatId := loopDoc.currentChatId
      let messageId := loopDoc.currentMessageId
      match copyRes with
      | .ok newMessageId =>
          let store1 := update_one store loopId newMessageId
          let evs := pre ++ [.copyMsg chatId messageId,
                             .dbUpdateMessageId loopId newMessageId,
                             .deleteMsg chatId messageId]
          match delRes with
          | .fatal => ⟨store1, evs, .crashed⟩
          | _ => ⟨store1, evs, .reposted⟩
      | .err _ =>
          let store1 := delete_one store loopId
          let evs := pre ++ [.copyMsg chatId messageId, .dbDeleteRow loopId,
                             .deleteMsg chatId messageId]
          match delRes with
          | .fatal => ⟨store1, evs, .crashed⟩
          | _ => ⟨store1, evs, .failed⟩

/-- The environment one iteration runs in: the config read at the top of
the iteration, the wall clock at the post-sleep re-read, and the
outcomes the platform would give to the copy and delete calls. -/
structure CycleEnv where
  cfg : Config
  now : Nat
  copyRes : CopyResult
  delRes : DeleteResult
deriving Repr, DecidableEq

/-- Result of running `loop_processor` over a script of cycle
environments: final store, concatenated events, and the terminal outcome
(`none` when the script ran out while the loop was still live). -/
structure RunResult where
  store : Store
  events : List Event
  outcome : Option CycleOutcome
deriving Repr, DecidableEq

/-- The whole `while True:` loop of `loop_processor`, driven by a script
of per-cycle environments: iterate `loop_processor_cycle`, continuing
only on the `reposted` outcome. -/
def loop_processor_run : List CycleEnv → Store → Nat → RunResult
  | [], store, _ => ⟨store, [], none⟩
  | env :: rest, store, loopId =>
    let r := loop_processor_cycle env.cfg env.now env.copyRes env.delRes store loopId
    if r.outcome = .reposted then
      let r2 := loop_processor_run rest r.store loopId
      ⟨r2.store, r.events ++ r2.events, r2.outcome⟩
    else ⟨r.store, r.events, some r.outcome⟩

/-- The sequence of sleep durations occurring in an event list. -/
def sleepsOf : List Event → List Nat
  | [] => []
  | .sleep d :: rest => d :: sleepsOf rest
  | _ :: rest => sleepsOf rest

/-- Kinds of message content; `handle_message` never inspects this field,
which the model makes visible by quantifying theorems over it. -/
inductive MessageContent where
  | text
  | photo
  | document
  | video
  | sticker
  | other
deriving Repr, DecidableEq

/-- The parts of an inbound Telegram message that `handle_message` and the
dispatch filter of `main` can look at. -/
structure Message where
  chatId : Int
  messageId : Nat
  fromUserId : Nat
  fromUserIsBot : Bool
  isCommand : Bool
  content : MessageContent
deriving Repr, DecidableEq

/-- An `Update` as `handle_message` receives it: `message` may be absent. -/
structure TgUpdate where
  message : Option Message
deriving Repr, DecidableEq

/-- The dispatch filter `main` registers `handle_message` under
(`src/bot.py` line 213): `filters.ALL & ~filters.COMMAND`, so every
non-command update of any content type reaches the handler. -/
def messageHandlerAccepts (msg : Message) : Bool := !msg.isCommand

/-- Result of the ingestion handler: the new store, and the loop id of the
execution unit started by `asyncio.create_task(loop_processor ...)`,
when one was started. -/
structure IngestResult where
  store : Store
  spawnedLoopId : Option Nat
deriving Repr, DecidableEq

/-- `handle_message` (`src/bot.py` lines 166-187): return early when the
update has no message or the database is not connected; return early
when `update.message.from_user.is_bot` (which covers the service
identity itself, a bot account); otherwise insert a new document with
`expiration_time = now + loop_duration_seconds` and start a dedicated
`loop_processor` task for the inserted id. -/
def handle_message (dbConnected : Bool) (cfg : Config) (now : Nat) (nextId : Nat)
    (upd : TgUpdate) (store : Store) : IngestResult :=
  match upd.message with
  | none => ⟨store, none⟩
  | some msg =>
    if dbConnected = false then ⟨store, none⟩
    else if msg.fromUserIsBot then ⟨store, none⟩
    else
      let expirationTime := now + cfg.loopDurationSeconds
      let newLoop : LoopItem := ⟨msg.chatId, msg.messageId, expirationTime⟩
      ⟨store ++ [(nextId, newLoop)], some nextId⟩

/-- `asyncio.create_task`: schedules a task and returns it when an event
loop is running in the current thread, and raises
`RuntimeError: no running event loop` otherwise. -/
def create_task (eventLoopRunning : Bool) (loopId : Nat) : Except String Nat :=
  if eventLoopRunning then .ok loopId else .error "RuntimeError: no running event loop"

/-- The loop of the startup block: for each document found by
`loops_collection.find({})`, call `asyncio.create_task(loop_processor ...)`;
the first raised exception propagates out of the block. -/
def spawn_all (eventLoopRunning : Bool) : Store → Except String (List Nat)
  | [] => .ok []
  | (loopId, _) :: rest => do
    let t ← create_task eventLoopRunning loopId
    let ts ← spawn_all eventLoopRunning rest
    pure (t :: ts)

/-- The recovery block under `if __name__ == "__main__":` (`src/bot.py`
lines 224-236). It executes at module top level, before
`asyncio.run(main())` has started the event loop, so its
`asyncio.create_task` calls run with no running event loop. -/
def startup_recovery (store : Store) : Except String (List Nat) :=
  spawn_all false store

/-! Helper lemmas about the store operations and event traces. -/

theorem find_one_update_one_self (s : Store) (loopId newMid : Nat) (doc : LoopItem)
    (h : find_one s loopId = some doc) :
    find_one (update_one s loopId newMid) loopId =
      some { doc with currentMessageId := newMid } := by
  induction s with
  | nil => simp [find_one] at h
  | cons p rest ih =>
    obtain ⟨i, it⟩ := p
    by_cases hi : i = loopId
    · subst hi
      simp [find_one] at h
      simp [update_one, find_one, h]
    · simp [find_one, hi] at h
      simp [update_one, find_one, hi, ih h]

theorem find_one_update_one_ne (s : Store) (loopId newMid j : Nat) (hj : j ≠ loopId) :
    find_one (update_one s loopId newMid) j = find_one s j := by
  induction s with
  | nil => simp [update_one]
  | cons p rest ih =>
    obtain ⟨i, it⟩ := p
    by_cases hi : i = loopId
    · subst hi
      have hij : i ≠ j := fun e => hj e.symm
      simp [update_one, find_one, hij]
    · by_cases hij : i = j <;> simp [update_one, find_one, hi, hij, hj, ih]

theorem sleepsOf_append (a b : List Event) :
    sleepsOf (a ++ b) = sleepsOf a ++ sleepsOf b := by
  induction a with
  | nil => rfl
  | cons e rest ih => cases e <;> simp [sleepsOf, ih]

theorem sleepsOf_cycle (cfg : Config) (now : Nat) (copyRes : CopyResult)
    (delRes : DeleteResult) (store : Store) (loopId : Nat) :
    sleepsOf (loop_processor_cycle cfg now copyRes delRes store loopId).events =
      [cfg.repostDelaySeconds] := by
  cases h : find_one store loopId with
  | none => simp [loop_processor_cycle, h, sleepsOf]
  | some doc =>
    by_cases hexp : doc.expirationTime < now
    · cases delRes <;> simp [loop_processor_cycle, h, hexp, sleepsOf]
    · cases copyRes <;> cases delRes <;>
        simp [loop_processor_cycle, h, hexp, sleepsOf]

theorem cycle_events_head (cfg : Config) (now : Nat) (copyRes : CopyResult)
    (delRes : DeleteResult) (store : Store) (loopId : Nat) :
    (loop_processor_cycle cfg now copyRes delRes store loopId).events.head? =
      some (Event.sleep cfg.repostDelaySeconds) := by
  cases h : find_one store loopId with
  | none => simp [loop_processor_cycle, h]
  | some doc =>
    by_cases hexp : doc.expirationTime < now
    · cases delRes <;> simp [loop_processor_cycle, h, hexp]
    · cases copyRes <;> cases delRes <;> simp [loop_processor_cycle, h, hexp]

/-! Claim theorems. -/

/-- C1 counterexample: the claim says that at the post-sleep re-read
`now >= expiration_time` takes the Expired path, including the boundary
case `now = expiration_time`. The code tests `expiration_time < now`
strictly (`src/bot.py` line 139), so with `now = expiration_time = 10`
the cycle reposts: it performs a copy, keeps the row (with the new
message id) and does not take the Expired path. -/
theorem expiry_boundary_cex :
    (loop_processor_cycle ⟨30, 43200⟩ 10 (CopyResult.ok 77) DeleteResult.ok
        [(1, ⟨-100, 55, 10⟩)] 1).outcome = CycleOutcome.reposted ∧
    Event.copyMsg (-100) 55 ∈
      (loop_processor_cycle ⟨30, 43200⟩ 10 (CopyResult.ok 77) DeleteResult.ok
        [(1, ⟨-100, 55, 10⟩)] 1).events ∧
    find_one (loop_processor_cycle ⟨30, 43200⟩ 10 (CopyResult.ok 77) DeleteResult.ok
        [(1, ⟨-100, 55, 10⟩)] 1).store 1 = some ⟨-100, 77, 10⟩ := by
  refine ⟨rfl, ?_, rfl⟩
  decide

/-- C1 (amended): for every cycle, if at the post-sleep re-read the
current time is strictly greater than the expiration time
(`expiration_time < now`, the test on `src/bot.py` line 139), the unit
takes the Expired path: it attempts to delete `current_message_id` from
the chat, deletes the LoopItem row, and the whole remaining run exits
with no further events — in particular it never performs a repost,
whatever the scripted later cycles would have offered. At exact
equality `now = expiration_time` the unit reposts instead. -/
theorem expired_path_after_deadline (cfg : Config) (now : Nat) (copyRes : CopyResult)
    (delRes : DeleteResult) (store : Store) (loopId : Nat) (doc : LoopItem)
    (rest : List CycleEnv)
    (hget : find_one store loopId = some doc) (hexp : doc.expirationTime < now)
    (hdel : delRes ≠ DeleteResult.fatal) :
    loop_processor_run (⟨cfg, now, copyRes, delRes⟩ :: rest) store loopId =
      ⟨delete_one store loopId,
       [.sleep cfg.repostDelaySeconds, .dbFindOne loopId,
        .deleteMsg doc.currentChatId doc.currentMessageId, .dbDeleteRow loopId],
       some CycleOutcome.expired⟩ := by
  cases delRes with
  | fatal => exact absurd rfl hdel
  | ok => simp [loop_processor_run, loop_processor_cycle, hget, hexp]
  | notFound => simp [loop_processor_run, loop_processor_cycle, hget, hexp]

/-- Witness for C1: an item that expired at 10, woken at 11, is deleted
and its row removed; the run ends even though a second cycle was
scripted. -/
theorem expired_path_after_deadline_witness :
    loop_processor_run
        [⟨⟨30, 43200⟩, 11, CopyResult.ok 77, DeleteResult.ok⟩,
         ⟨⟨30, 43200⟩, 12, CopyResult.ok 88, DeleteResult.ok⟩]
        [(1, ⟨-100, 55, 10⟩)] 1 =
      ⟨[], [.sleep 30, .dbFindOne 1, .deleteMsg (-100) 55, .dbDeleteRow 1],
       some CycleOutcome.expired⟩ :=
  expired_path_after_deadline ⟨30, 43200⟩ 11 (CopyResult.ok 77) DeleteResult.ok
    [(1, ⟨-100, 55, 10⟩)] 1 ⟨-100, 55, 10⟩
    [⟨⟨30, 43200⟩, 12, CopyResult.ok 88, DeleteResult.ok⟩]
    rfl (by decide) (by decide)

/-- C2 counterexample: the claim says the currently visible message is
not deleted on the Failed path. In the code the `finally` block
(`src/bot.py` lines 160-164) always deletes the old message, so on a
copy failure the cycle ends with outcome Failed, the row deleted, and
the old (only) message also deleted — the content is permanently
discarded on the Failed path too. -/
theorem failed_path_deletes_cex :
    Event.deleteMsg (-100) 55 ∈
      (loop_processor_cycle ⟨30, 43200⟩ 10 (CopyResult.err false) DeleteResult.ok
        [(1, ⟨-100, 55, 999⟩)] 1).events ∧
    (loop_processor_cycle ⟨30, 43200⟩ 10 (CopyResult.err false) DeleteResult.ok
        [(1, ⟨-100, 55, 999⟩)] 1).outcome = CycleOutcome.failed ∧
    (loop_processor_cycle ⟨30, 43200⟩ 10 (CopyResult.err false) DeleteResult.ok
        [(1, ⟨-100, 55, 999⟩)] 1).store = [] := by
  refine ⟨?_, rfl, rfl⟩
  decide

/-- C2 (amended): content is permanently discarded on both the Expired
path and the Failed path — the `finally` block deletes the old message
even when the copy failed, so a Failed cycle leaves no surviving copy
(no `current_message_id` update ever happens on it). Only the Cancelled
path performs no platform action at all. -/
theorem content_discard_paths (cfg : Config) (now : Nat) (copyRes : CopyResult)
    (delRes : DeleteResult) (store : Store) (loopId : Nat) :
    (find_one store loopId = none →
      loop_processor_cycle cfg now copyRes delRes store loopId =
        ⟨store, [.sleep cfg.repostDelaySeconds, .dbFindOne loopId], .cancelled⟩) ∧
    (∀ doc t, find_one store loopId = some doc → ¬ doc.expirationTime < now →
      copyRes = CopyResult.err t → delRes ≠ DeleteResult.fatal →
      (loop_processor_cycle cfg now copyRes delRes store loopId).outcome =
          CycleOutcome.failed ∧
      Event.deleteMsg doc.currentChatId doc.currentMessageId ∈
        (loop_processor_cycle cfg now copyRes delRes store loopId).events ∧
      ∀ m, Event.dbUpdateMessageId loopId m ∉
        (loop_processor_cycle cfg now copyRes delRes store loopId).events) ∧
    (∀ doc, find_one store loopId = some doc → doc.expirationTime < now →
      delRes ≠ DeleteResult.fatal →
      (loop_processor_cycle cfg now copyRes delRes store loopId).outcome =
          CycleOutcome.expired ∧
      Event.deleteMsg doc.currentChatId doc.currentMessageId ∈
        (loop_processor_cycle cfg now copyRes delRes store loopId).events) := by
  refine ⟨fun h => by simp [loop_processor_cycle, h], ?_, ?_⟩
  · rintro doc t hget hexp rfl hdel
    cases delRes with
    | fatal => exact absurd rfl hdel
    | ok => simp [loop_processor_cycle, hget, hexp]
    | notFound => simp [loop_processor_cycle, hget, hexp]
  · rintro doc hget hexp hdel
    cases delRes with
    | fatal => exact absurd rfl hdel
    | ok => simp [loop_processor_cycle, hget, hexp]
    | notFound => simp [loop_processor_cycle, hget, hexp]

/-- Witness for C2 (amended): the Cancelled branch on an empty store, and
the Failed branch on a one-row store with a failing copy. -/
theorem content_discard_paths_witness :
    (loop_processor_cycle ⟨30, 43200⟩ 10 (CopyResult.err true) DeleteResult.ok [] 9 =
      ⟨[], [.sleep 30, .dbFindOne 9], .cancelled⟩) ∧
    ((loop_processor_cycle ⟨30, 43200⟩ 10 (CopyResult.err true) DeleteResult.ok
        [(2, ⟨-50, 40, 99⟩)] 2).outcome = CycleOutcome.failed ∧
      Event.deleteMsg (-50) 40 ∈
        (loop_processor_cycle ⟨30, 43200⟩ 10 (CopyResult.err true) DeleteResult.ok
          [(2, ⟨-50, 40, 99⟩)] 2).events ∧
      ∀ m, Event.dbUpdateMessageId 2 m ∉
        (loop_processor_cycle ⟨30, 43200⟩ 10 (CopyResult.err true) DeleteResult.ok
          [(2, ⟨-50, 40, 99⟩)] 2).events) :=
  ⟨(content_discard_paths ⟨30, 43200⟩ 10 (CopyResult.err true) DeleteResult.ok [] 9).1
      rfl,
   (content_discard_paths ⟨30, 43200⟩ 10 (CopyResult.err true) DeleteResult.ok
      [(2, ⟨-50, 40, 99⟩)] 2).2.1 ⟨-50, 40, 99⟩ true rfl (by decide) rfl (by decide)⟩

/-- C3: on every successful repost cycle the event order is sleep,
re-fetch, copy, update of `current_message_id`, and only then the delete
of the old message (the update at line 154 runs inside the `try` body,
the delete in the `finally` block); the updated row keeps the same chat
id and expiration time with only `current_message_id` changed, and every
other row of the store is untouched. This holds whatever the delete of
the old message returns. -/
theorem repost_updates_then_deletes (cfg : Config) (now newMid : Nat)
    (delRes : DeleteResult) (store : Store) (loopId : Nat) (doc : LoopItem)
    (hget : find_one store loopId = some doc) (hexp : ¬ doc.expirationTime < now) :
    (loop_processor_cycle cfg now (CopyResult.ok newMid) delRes store loopId).events =
      [.sleep cfg.repostDelaySeconds, .dbFindOne loopId,
       .copyMsg doc.currentChatId doc.currentMessageId,
       .dbUpdateMessageId loopId newMid,
       .deleteMsg doc.currentChatId doc.currentMessageId] ∧
    (loop_processor_cycle cfg now (CopyResult.ok newMid) delRes store loopId).store =
      update_one store loopId newMid ∧
    find_one (loop_processor_cycle cfg now (CopyResult.ok newMid) delRes
        store loopId).store loopId =
      some ⟨doc.currentChatId, newMid, doc.expirationTime⟩ ∧
    (∀ j, j ≠ loopId →
      find_one (loop_processor_cycle cfg now (CopyResult.ok newMid) delRes
          store loopId).store j = find_one store j) := by
  have hstore :
      (loop_processor_cycle cfg now (CopyResult.ok newMid) delRes store loopId).store =
        update_one store loopId newMid := by
    cases delRes <;> simp [loop_processor_cycle, hget, hexp]
  have hevs :
      (loop_processor_cycle cfg now (CopyResult.ok newMid) delRes store loopId).events =
        [.sleep cfg.repostDelaySeconds, .dbFindOne loopId,
         .copyMsg doc.currentChatId doc.currentMessageId,
         .dbUpdateMessageId loopId newMid,
         .deleteMsg doc.currentChatId doc.currentMessageId] := by
    cases delRes <;> simp [loop_processor_cycle, hget, hexp]
  refine ⟨hevs, hstore, ?_, ?_⟩
  · rw [hstore, find_one_update_one_self store loopId newMid doc hget]
  · intro j hj
    rw [hstore, find_one_update_one_ne store loopId newMid j hj]

/-- Witness for C3: a concrete repost of message 55 to 77 in chat -100;
the row afterwards is (-100, 77, 999) and an unrelated row is kept. -/
theorem repost_updates_then_deletes_witness :
    (loop_processor_cycle ⟨30, 43200⟩ 10 (CopyResult.ok 77) DeleteResult.ok
        [(1, ⟨-100, 55, 999⟩), (2, ⟨-50, 40, 500⟩)] 1).events =
      [.sleep 30, .dbFindOne 1, .copyMsg (-100) 55, .dbUpdateMessageId 1 77,
       .deleteMsg (-100) 55] ∧
    (loop_processor_cycle ⟨30, 43200⟩ 10 (CopyResult.ok 77) DeleteResult.ok
        [(1, ⟨-100, 55, 999⟩), (2, ⟨-50, 40, 500⟩)] 1).store =
      update_one [(1, ⟨-100, 55, 999⟩), (2, ⟨-50, 40, 500⟩)] 1 77 ∧
    find_one (loop_processor_cycle ⟨30, 43200⟩ 10 (CopyResult.ok 77) DeleteResult.ok
        [(1, ⟨-100, 55, 999⟩), (2, ⟨-50, 40, 500⟩)] 1).store 1 =
      some ⟨-100, 77, 999⟩ ∧
    (∀ j, j ≠ 1 →
      find_one (loop_processor_cycle ⟨30, 43200⟩ 10 (CopyResult.ok 77) DeleteResult.ok
          [(1, ⟨-100, 55, 999⟩), (2, ⟨-50, 40, 500⟩)] 1).store j =
        find_one [(1, ⟨-100, 55, 999⟩), (2, ⟨-50, 40, 500⟩)] j) :=
  repost_updates_then_deletes ⟨30, 43200⟩ 10 77 DeleteResult.ok
    [(1, ⟨-100, 55, 999⟩), (2, ⟨-50, 40, 500⟩)] 1 ⟨-100, 55, 999⟩ rfl (by decide)

/-- C4 counterexample: the claim says a Transient copy failure leaves the
LoopItem row in place for a retry on the next cycle. The code catches
every `Exception` alike (`src/bot.py` line 155) and deletes the row, so
a transient failure (the `transient := true` oracle outcome) also
retires the item: the store is empty afterwards and the unit exits with
outcome Failed. -/
theorem transient_copy_retires_cex :
    (loop_processor_cycle ⟨30, 43200⟩ 10 (CopyResult.err true) DeleteResult.ok
        [(1, ⟨-100, 55, 999⟩)] 1).store = [] ∧
    (loop_processor_cycle ⟨30, 43200⟩ 10 (CopyResult.err true) DeleteResult.ok
        [(1, ⟨-100, 55, 999⟩)] 1).outcome = CycleOutcome.failed := ⟨rfl, rfl⟩

/-- C4 (amended): every copy failure, transient or not, causes the Failed
transition: the `except Exception` handler deletes the LoopItem row and
the unit exits; there is no retry-next-cycle path for transient
errors. -/
theorem copy_failure_retires (cfg : Config) (now : Nat) (t : Bool)
    (delRes : DeleteResult) (store : Store) (loopId : Nat) (doc : LoopItem)
    (rest : List CycleEnv)
    (hget : find_one store loopId = some doc) (hexp : ¬ doc.expirationTime < now)
    (hdel : delRes ≠ DeleteResult.fatal) :
    loop_processor_run (⟨cfg, now, CopyResult.err t, delRes⟩ :: rest) store loopId =
      ⟨delete_one store loopId,
       [.sleep cfg.repostDelaySeconds, .dbFindOne loopId,
        .copyMsg doc.currentChatId doc.currentMessageId, .dbDeleteRow loopId,
        .deleteMsg doc.currentChatId doc.currentMessageId],
       some CycleOutcome.failed⟩ := by
  cases delRes with
  | fatal => exact absurd rfl hdel
  | ok => simp [loop_processor_run, loop_processor_cycle, hget, hexp]
  | notFound => simp [loop_processor_run, loop_processor_cycle, hget, hexp]

/-- Witness for C4 (amended): a transient copy failure on a live item
deletes the row and ends the run even though a later cycle was
scripted. -/
theorem copy_failure_retires_witness :
    loop_processor_run
        [⟨⟨30, 43200⟩, 10, CopyResult.err true, DeleteResult.ok⟩,
         ⟨⟨30, 43200⟩, 40, CopyResult.ok 88, DeleteResult.ok⟩]
        [(1, ⟨-100, 55, 999⟩)] 1 =
      ⟨[], [.sleep 30, .dbFindOne 1, .copyMsg (-100) 55, .dbDeleteRow 1,
            .deleteMsg (-100) 55],
       some CycleOutcome.failed⟩ :=
  copy_failure_retires ⟨30, 43200⟩ 10 true DeleteResult.ok
    [(1, ⟨-100, 55, 999⟩)] 1 ⟨-100, 55, 999⟩
    [⟨⟨30, 43200⟩, 40, CopyResult.ok 88, DeleteResult.ok⟩]
    rfl (by decide) (by decide)

/-- C5: if the post-sleep re-fetch finds the row absent, the unit exits
with the Cancelled outcome: the only events of the whole remaining run
are the sleep and the failed re-fetch — no platform call and no store
write — and the store is returned unchanged. -/
theorem absent_row_cancels (env : CycleEnv) (rest : List CycleEnv) (store : Store)
    (loopId : Nat) (hget : find_one store loopId = none) :
    loop_processor_run (env :: rest) store loopId =
      ⟨store, [.sleep env.cfg.repostDelaySeconds, .dbFindOne loopId],
       some CycleOutcome.cancelled⟩ := by
  simp [loop_processor_run, loop_processor_cycle, hget]

/-- Witness for C5: a unit whose row (id 7) is gone exits silently. -/
theorem absent_row_cancels_witness :
    loop_processor_run
        [⟨⟨30, 43200⟩, 10, CopyResult.ok 77, DeleteResult.ok⟩,
         ⟨⟨30, 43200⟩, 40, CopyResult.ok 88, DeleteResult.ok⟩]
        [(1, ⟨-100, 55, 999⟩)] 7 =
      ⟨[(1, ⟨-100, 55, 999⟩)], [.sleep 30, .dbFindOne 7],
       some CycleOutcome.cancelled⟩ :=
  absent_row_cancels ⟨⟨30, 43200⟩, 10, CopyResult.ok 77, DeleteResult.ok⟩
    [⟨⟨30, 43200⟩, 40, CopyResult.ok 88, DeleteResult.ok⟩]
    [(1, ⟨-100, 55, 999⟩)] 7 rfl

/-- C6: a delete call answered with `BadRequest` (NotFound, the message
already gone) is caught by the `except BadRequest: pass` handlers at
both delete sites (`src/bot.py` lines 141-143 and 162-164), so the whole
cycle — resulting store, events and outcome — is identical to the one
where the delete succeeded, on every input. -/
theorem delete_notfound_idempotent (cfg : Config) (now : Nat) (copyRes : CopyResult)
    (store : Store) (loopId : Nat) :
    loop_processor_cycle cfg now copyRes DeleteResult.notFound store loopId =
      loop_processor_cycle cfg now copyRes DeleteResult.ok store loopId := by
  cases h : find_one store loopId with
  | none => simp [loop_processor_cycle, h]
  | some doc =>
    by_cases hexp : doc.expirationTime < now
    · simp [loop_processor_cycle, h, hexp]
    · cases copyRes <;> simp [loop_processor_cycle, h, hexp]

/-- C7 (code bug): the recovery block runs at module top level, before
`asyncio.run(main())` has started an event loop, so its
`asyncio.create_task(loop_processor ...)` call raises
`RuntimeError: no running event loop` on the first persisted row and
zero units are spawned — with one row in the store the block errors
instead of spawning one unit. Had an event loop been running (the
evident intent of the block), the same per-row loop would have spawned
exactly one unit per row, each bound to a distinct row id. -/
theorem startup_recovery_runtime_error :
    startup_recovery [(1, ⟨-100, 55, 10⟩)] =
      Except.error "RuntimeError: no running event loop" ∧
    spawn_all true [(1, ⟨-100, 55, 10⟩), (2, ⟨-50, 40, 20⟩)] =
      Except.ok [1, 2] := ⟨rfl, rfl⟩

/-- C8: the config is re-read at the top of every iteration, before the
sleep: the first event of every cycle is a sleep of exactly the
`repost_delay_seconds` of the config read at that cycle start, and over
a whole run the sequence of sleep durations is a prefix of the
per-cycle-start config values — so a config change is used by the next
sleep of every item, and only the one cycle already past its config
read can still use the old value. -/
theorem config_reread_each_cycle (cfg : Config) (now : Nat) (copyRes : CopyResult)
    (delRes : DeleteResult) (store store2 : Store) (loopId : Nat)
    (envs : List CycleEnv) :
    (loop_processor_cycle cfg now copyRes delRes store loopId).events.head? =
      some (Event.sleep cfg.repostDelaySeconds) ∧
    sleepsOf (loop_processor_run envs store2 loopId).events <+:
      envs.map (fun env => env.cfg.repostDelaySeconds) := by
  refine ⟨cycle_events_head cfg now copyRes delRes store loopId, ?_⟩
  induction envs generalizing store2 with
  | nil => simp [loop_processor_run, sleepsOf]
  | cons env rest ih =>
    show sleepsOf (loop_processor_run (env :: rest) store2 loopId).events <+: _
    rw [loop_processor_run]
    by_cases hrep :
        (loop_processor_cycle env.cfg env.now env.copyRes env.delRes
          store2 loopId).outcome = CycleOutcome.reposted
    · rw [if_pos hrep]
      dsimp only
      rw [sleepsOf_append, sleepsOf_cycle]
      simp only [List.singleton_append, List.map_cons]
      exact List.cons_prefix_cons.mpr ⟨rfl, ih _⟩
    · rw [if_neg hrep]
      dsimp only
      rw [sleepsOf_cycle]
      simp only [List.map_cons]
      exact List.cons_prefix_cons.mpr ⟨rfl, List.nil_prefix⟩

/-- C9: an inbound event whose origin is the service identity itself
creates no LoopItem. The service identity is a bot account, so its
messages carry `from_user.is_bot = true` and `handle_message` returns at
the guard on `src/bot.py` line 171: the store is unchanged and no
execution unit is spawned. -/
theorem self_origin_not_tracked (botUserId : Nat) (dbConnected : Bool) (cfg : Config)
    (now nextId : Nat) (store : Store) (msg : Message)
    (hself : msg.fromUserId = botUserId) (hbot : msg.fromUserIsBot = true) :
    handle_message dbConnected cfg now nextId ⟨some msg⟩ store = ⟨store, none⟩ := by
  cases dbConnected <;> simp [handle_message, hbot]

/-- Witness for C9: a message from the service account (id 999, a bot)
leaves the store unchanged and spawns nothing. -/
theorem self_origin_not_tracked_witness :
    handle_message true ⟨30, 43200⟩ 0 5
        ⟨some ⟨-100, 55, 999, true, false, MessageContent.photo⟩⟩
        [(1, ⟨-100, 50, 400⟩)] =
      ⟨[(1, ⟨-100, 50, 400⟩)], none⟩ :=
  self_origin_not_tracked 999 true ⟨30, 43200⟩ 0 5 [(1, ⟨-100, 50, 400⟩)]
    ⟨-100, 55, 999, true, false, MessageContent.photo⟩ rfl rfl

/-- C10: for every non-command update that carries a message and reaches
the handler with the database connected, the result depends only on
`from_user.is_bot`: a human message of any content type inserts exactly
one new LoopItem with `expiration_time = now + loop_duration_seconds`
and spawns a unit for the new id, and a message from any bot account is
discarded — the content field is never inspected. -/
theorem noncommand_message_tracking (cfg : Config) (now nextId : Nat) (store : Store)
    (msg : Message) (haccept : messageHandlerAccepts msg = true) :
    handle_message true cfg now nextId ⟨some msg⟩ store =
      (if msg.fromUserIsBot then ⟨store, none⟩
       else ⟨store ++
              [(nextId, ⟨msg.chatId, msg.messageId, now + cfg.loopDurationSeconds⟩)],
             some nextId⟩ : IngestResult) := by
  by_cases hb : msg.fromUserIsBot <;> simp [handle_message, hb]

/-- Witness for C10: a plain text message from a human is tracked, a
sticker from a bot that is not the service identity is discarded. -/
theorem noncommand_message_tracking_witness :
    handle_message true ⟨30, 43200⟩ 0 5
        ⟨some ⟨-100, 55, 42, false, false, MessageContent.text⟩⟩ [] =
      ⟨[(5, ⟨-100, 55, 43200⟩)], some 5⟩ ∧
    handle_message true ⟨30, 43200⟩ 0 5
        ⟨some ⟨-100, 56, 123, true, false, MessageContent.sticker⟩⟩ [] =
      ⟨[], none⟩ :=
  ⟨noncommand_message_tracking ⟨30, 43200⟩ 0 5 []
      ⟨-100, 55, 42, false, false, MessageContent.text⟩ rfl,
   noncommand_message_tracking ⟨30, 43200⟩ 0 5 []
      ⟨-100, 56, 123, true, false, MessageContent.sticker⟩ rfl⟩

end ScrubberBot
